import Mathlib

/-!
Verification development for the S3 object-storage client layer declared in
`src/IO/S3Common.h` (URI model, auth settings, error classifier, object query
operations).  The header under `src/` declares the interface; the corresponding
implementation file is not part of the source tree, so implementations are
modelled from the specification where noted.
-/

namespace S3Spec

/-- Modelled from the spec: the provider's closed error-code enumeration
(`Aws::S3::S3Errors`, an external collaborator type; only its declaration is
visible in `src/IO/S3Common.h`).  It covers the transient classes named by the
spec (throttling, internal provider errors, service-unavailable, timeout,
connection-reset, slow-down), the not-found classes (no such key/bucket/object),
the client-caused classes (access-denied, bad-request, invalid-argument) and
further codes that belong to none of these classes. -/
inductive S3Errors where
  | THROTTLING
  | INTERNAL_FAILURE
  | SERVICE_UNAVAILABLE
  | REQUEST_TIMEOUT
  | NETWORK_CONNECTION
  | SLOW_DOWN
  | RESOURCE_NOT_FOUND
  | NO_SUCH_KEY
  | NO_SUCH_BUCKET
  | ACCESS_DENIED
  | INVALID_PARAMETER_VALUE
  | MALFORMED_QUERY_STRING
  | VALIDATION
  | INVALID_ACCESS_KEY_ID
  | BUCKET_ALREADY_EXISTS
  | UNKNOWN
deriving DecidableEq, Repr

/-- The transient error classes the spec explicitly recognizes as retryable:
throttling, internal provider errors, service-unavailable, timeout,
connection-reset, slow-down. -/
def transientCodes : List S3Errors :=
  [.THROTTLING, .INTERNAL_FAILURE, .SERVICE_UNAVAILABLE,
   .REQUEST_TIMEOUT, .NETWORK_CONNECTION, .SLOW_DOWN]

/-- The not-found classes the spec explicitly recognizes: no such
key/bucket/object. -/
def notFoundCodes : List S3Errors :=
  [.RESOURCE_NOT_FOUND, .NO_SUCH_KEY, .NO_SUCH_BUCKET]

/-- Modelled from the spec: the error classifier predicate
`isRetryableError(code)` whose implementation (`S3Common.cpp`) is absent from
the source tree.  True for the transient classes, false for client-caused
errors and for every unrecognized code (conservative default). -/
def isRetryableError (code : S3Errors) : Bool :=
  match code with
  | .THROTTLING => true
  | .INTERNAL_FAILURE => true
  | .SERVICE_UNAVAILABLE => true
  | .REQUEST_TIMEOUT => true
  | .NETWORK_CONNECTION => true
  | .SLOW_DOWN => true
  | _ => false

/-- Modelled from the spec: the classifier predicate `isNotFoundError(code)`
declared at `src/IO/S3Common.h:149`, implementation absent from the source
tree.  True exactly for the "no such key/bucket/object" classes; access-denied
is not absence. -/
def isNotFoundError (code : S3Errors) : Bool :=
  match code with
  | .RESOURCE_NOT_FOUND => true
  | .NO_SUCH_KEY => true
  | .NO_SUCH_BUCKET => true
  | _ => false

/-- A provider error as returned by the transport collaborator: a code plus a
human-readable message. -/
structure S3Error where
  code : S3Errors
  message : String
deriving DecidableEq, Repr

/-- `S3Exception` from `src/IO/S3Common.h:34`: carries the provider error code
alongside a human-readable message (the fixed internal classification
`S3_ERROR` is implicit in the type). -/
structure S3Exception where
  code : S3Errors
  message : String
deriving DecidableEq, Repr

/-- `S3Exception::getS3ErrorCode` from `src/IO/S3Common.h:51`. -/
def S3Exception.getS3ErrorCode (e : S3Exception) : S3Errors := e.code

/-- Modelled from the spec: `S3Exception::isRetryableError()` (declared at
`src/IO/S3Common.h:56`, implementation absent) defers to the classifier using
the stored code. -/
def S3Exception.isRetryable (e : S3Exception) : Bool :=
  isRetryableError e.code

/-- Builds the exception raised for a provider error, preserving the original
code and message. -/
def s3ExceptionOf (e : S3Error) : S3Exception :=
  { code := e.code, message := e.message }

/-- `ObjectInfo` from `src/IO/S3Common.h:134`: `size` in bytes and
`last_modification_time` in epoch seconds, both zero-initialized. -/
structure ObjectInfo where
  size : Nat := 0
  last_modification_time : Nat := 0
deriving DecidableEq, Repr

/-- The outcome of one metadata-only existence probe (a `HeadObject`-style
request): success with the object's info, an error response carrying a
diagnostic body, or the quirk documented at `src/IO/S3Common.h:124`-`132` — an
error response with no body at all. -/
inductive ProbeOutcome where
  | success (info : ObjectInfo)
  | errorWithBody (err : S3Error)
  | errorNoBody (err : S3Error)
deriving DecidableEq, Repr

/-- The provider error of a probe outcome, if the probe failed. -/
def ProbeOutcome.errorOf : ProbeOutcome → Option S3Error
  | .success _ => none
  | .errorWithBody e => some e
  | .errorNoBody e => some e

/-- Modelled from the spec: an `Aws::S3::S3Client` together with the transport
collaborator behind it (the client construction code is absent from the source
tree).  `region` is the configured region; `probe region bucket key version_id`
is the transport's response to a metadata-only existence probe issued against
`region`; `detectRegion` is the corrected region extracted from the diagnostic
the provider returns to the region-detection endpoint for misrouted requests
(`none` when discovery itself yields nothing usable); `fetchMetadata` answers
the full metadata fetch used by `getObjectMetadata`. -/
structure S3Client where
  region : String
  probe : String → String → String → String → ProbeOutcome
  detectRegion : Option String
  fetchMetadata : String → String → String → Except S3Error (List (String × String))

/-- One outbound request performed by an object query operation: a metadata
probe against a given region, or the region-discovery side-channel request. -/
inductive ReqEvent where
  | probeReq (region : String)
  | regionDetect
deriving DecidableEq, Repr

/-- Number of metadata probes in a request trace. -/
def probeCount (events : List ReqEvent) : Nat :=
  events.countP fun e => match e with | .probeReq _ => true | .regionDetect => false

/-- Number of region-discovery requests in a request trace. -/
def detectCount (events : List ReqEvent) : Nat :=
  events.countP fun e => match e with | .probeReq _ => false | .regionDetect => true

/-- Modelled from the spec: the shared core of `getObjectInfo` and
`getObjectSize` (declared at `src/IO/S3Common.h:140`-`142`, implementation
absent).  Issues the metadata-only existence probe against the configured
region; on an error response with no body it performs region discovery and
retries the original probe once against the corrected region before giving up.
Returns the result together with the trace of outbound requests performed. -/
def getObjectInfoImpl (client : S3Client) (bucket key version_id : String) :
    Except S3Error ObjectInfo × List ReqEvent :=
  match client.probe client.region bucket key version_id with
  | .success info => (.ok info, [.probeReq client.region])
  | .errorWithBody e => (.error e, [.probeReq client.region])
  | .errorNoBody e =>
    match client.detectRegion with
    | none => (.error e, [.probeReq client.region, .regionDetect])
    | some corrected =>
      match client.probe corrected bucket key version_id with
      | .success info =>
        (.ok info, [.probeReq client.region, .regionDetect, .probeReq corrected])
      | .errorWithBody e2 =>
        (.error e2, [.probeReq client.region, .regionDetect, .probeReq corrected])
      | .errorNoBody e2 =>
        (.error e2, [.probeReq client.region, .regionDetect, .probeReq corrected])

/-- The request trace of one `getObjectInfo` / `getObjectSize` call. -/
def getObjectInfoEvents (client : S3Client) (bucket key version_id : String) :
    List ReqEvent :=
  (getObjectInfoImpl client bucket key version_id).2

/-- Modelled from the spec: `getObjectInfo` from `src/IO/S3Common.h:140`
(implementation absent).  Default arguments transcribed from the header:
`version_id = ""`, `for_disk_s3 = false`, `throw_on_error = true`.  On failure
raises an `S3Exception` preserving the provider code and message when
`throw_on_error`, otherwise reports the zero-initialized sentinel. -/
def getObjectInfo (client : S3Client) (bucket key : String)
    (version_id : String := "") (for_disk_s3 : Bool := false)
    (throw_on_error : Bool := true) : Except S3Exception ObjectInfo :=
  match (getObjectInfoImpl client bucket key version_id).1 with
  | .ok info => .ok info
  | .error e => if throw_on_error then .error (s3ExceptionOf e) else .ok {}

/-- Modelled from the spec: `getObjectSize` from `src/IO/S3Common.h:142`
(implementation absent) — `getObjectInfo` restricted to the size field, with
size `0` as the sentinel. -/
def getObjectSize (client : S3Client) (bucket key : String)
    (version_id : String := "") (for_disk_s3 : Bool := false)
    (throw_on_error : Bool := true) : Except S3Exception Nat :=
  (getObjectInfo client bucket key version_id for_disk_s3 throw_on_error).map
    fun info => info.size

/-- The request trace of one `getObjectSize` call: `getObjectSize` issues
exactly the requests of `getObjectInfo`. -/
def getObjectSizeEvents (client : S3Client) (bucket key version_id : String) :
    List ReqEvent :=
  (getObjectInfoImpl client bucket key version_id).2

/-- Modelled from the spec: `checkObjectExists` from `src/IO/S3Common.h:147`
(implementation absent).  Its parameter list, transcribed from the header, has
no `throw_on_error` parameter.  Issues the metadata-only existence probe;
success reports `(true, no error)`; a not-found error reports `(false, error)`
without raising; a retryable error is likewise reported, not raised; only a
classifier-non-retryable, non-not-found error raises. -/
def checkObjectExists (client : S3Client) (bucket key : String)
    (version_id : String := "") (for_disk_s3 : Bool := false) :
    Except S3Exception (Bool × Option S3Error) :=
  match (client.probe client.region bucket key version_id).errorOf with
  | none => .ok (true, none)
  | some e =>
    if isNotFoundError e.code then .ok (false, some e)
    else if isRetryableError e.code then .ok (false, some e)
    else .error (s3ExceptionOf e)

/-- Modelled from the spec: `objectExists` from `src/IO/S3Common.h:144`
(implementation absent) — thin wrapper over the existence probe returning only
the boolean; absence is reported as `false`, never raised; a non-absence
failure raises when `throw_on_error`, else reports `false`. -/
def objectExists (client : S3Client) (bucket key : String)
    (version_id : String := "") (for_disk_s3 : Bool := false)
    (throw_on_error : Bool := true) : Except S3Exception Bool :=
  match (client.probe client.region bucket key version_id).errorOf with
  | none => .ok true
  | some e =>
    if isNotFoundError e.code then .ok false
    else if throw_on_error then .error (s3ExceptionOf e)
    else .ok false

/-- Modelled from the spec: `getObjectMetadata` from `src/IO/S3Common.h:152`
(implementation absent).  Issues a full metadata fetch (not the body-less
probe) and returns the complete key/value map; on failure raises when
`throw_on_error`, otherwise reports the empty map as sentinel. -/
def getObjectMetadata (client : S3Client) (bucket key : String)
    (version_id : String := "") (for_disk_s3 : Bool := false)
    (throw_on_error : Bool := true) :
    Except S3Exception (List (String × String)) :=
  match client.fetchMetadata bucket key version_id with
  | .ok m => .ok m
  | .error e => if throw_on_error then .error (s3ExceptionOf e) else .ok []

/-- Parameter names of `getObjectInfo` as declared at `src/IO/S3Common.h:140`. -/
def getObjectInfoParamNames : List String :=
  ["client", "bucket", "key", "version_id", "for_disk_s3", "throw_on_error"]

/-- Parameter names of `getObjectSize` as declared at `src/IO/S3Common.h:142`. -/
def getObjectSizeParamNames : List String :=
  ["client", "bucket", "key", "version_id", "for_disk_s3", "throw_on_error"]

/-- Parameter names of `objectExists` as declared at `src/IO/S3Common.h:144`. -/
def objectExistsParamNames : List String :=
  ["client", "bucket", "key", "version_id", "for_disk_s3", "throw_on_error"]

/-- Parameter names of `checkObjectExists` as declared at
`src/IO/S3Common.h:147`. -/
def checkObjectExistsParamNames : List String :=
  ["client", "bucket", "key", "version_id", "for_disk_s3"]

/-- Parameter names of `getObjectMetadata` as declared at
`src/IO/S3Common.h:152`. -/
def getObjectMetadataParamNames : List String :=
  ["client", "bucket", "key", "version_id", "for_disk_s3", "throw_on_error"]

/-- Splits a character list at the first occurrence of `c`: the part before
and the part after, or `none` when `c` does not occur. -/
def breakAt (c : Char) : List Char → Option (List Char × List Char)
  | [] => none
  | x :: xs =>
    if x = c then some ([], xs)
    else (breakAt c xs).map fun p => (x :: p.1, p.2)

/-- An HTTP header name/value pair (one entry of `HTTPHeaderEntries` from
`IO/HTTPHeaderEntries.h`, consumed by the header's declarations). -/
structure HTTPHeaderEntry where
  name : String
  value : String
deriving DecidableEq, Repr

/-- `AuthSettings` from `src/IO/S3Common.h:165`: credentials, region, SSE
customer key, the ordered extra headers, and two tri-state flags where an
absent `optional` means "inherit default". -/
structure AuthSettings where
  access_key_id : String := ""
  secret_access_key : String := ""
  region : String := ""
  server_side_encryption_customer_key_base64 : String := ""
  headers : List HTTPHeaderEntry := []
  use_environment_credentials : Option Bool := none
  use_insecure_imds_request : Option Bool := none
deriving DecidableEq, Repr

/-- `AuthSettings::operator==` from `src/IO/S3Common.h:179`: defaulted, i.e.
structural equality of all fields. -/
def AuthSettings.structEq (a b : AuthSettings) : Bool :=
  decide (a = b)

/-- Merge of one string-valued setting: a field present (non-empty) in the
overriding settings overwrites the receiver's field. -/
def overrideString (old new : String) : String :=
  if new = "" then old else new

/-- Merge of the header list: headers are replaced wholesale when the
overriding settings specify any. -/
def overrideHeaders (old new : List HTTPHeaderEntry) : List HTTPHeaderEntry :=
  if new = [] then old else new

/-- Merge of a tri-state flag: a flag set in the overriding settings
overwrites the receiver's flag; an absent flag inherits. -/
def overrideFlag (old new : Option Bool) : Option Bool :=
  match new with
  | some v => some v
  | none => old

/-- Modelled from the spec: `AuthSettings::updateFrom` declared at
`src/IO/S3Common.h:181`, implementation absent from the source tree.  For
every field present / non-default in `other`, overwrite the receiver's field;
headers are replaced wholesale when `other` specifies any. -/
def AuthSettings.updateFrom (a other : AuthSettings) : AuthSettings where
  access_key_id := overrideString a.access_key_id other.access_key_id
  secret_access_key := overrideString a.secret_access_key other.secret_access_key
  region := overrideString a.region other.region
  server_side_encryption_customer_key_base64 :=
    overrideString a.server_side_encryption_customer_key_base64
      other.server_side_encryption_customer_key_base64
  headers := overrideHeaders a.headers other.headers
  use_environment_credentials :=
    overrideFlag a.use_environment_credentials other.use_environment_credentials
  use_insecure_imds_request :=
    overrideFlag a.use_insecure_imds_request other.use_insecure_imds_request

/-- Modelled from the spec: the configuration tree collaborator
(`Poco::Util::AbstractConfiguration`, interface-only) as an ordered list of
key/value entries. -/
structure ConfigTree where
  entries : List (String × String)

/-- Looks a key up in the configuration tree. -/
def ConfigTree.lookup (c : ConfigTree) (key : String) : Option String :=
  (c.entries.find? fun p => p.1 == key).map Prod.snd

/-- String read with a default, as `AbstractConfiguration::getString`. -/
def ConfigTree.getString (c : ConfigTree) (key deflt : String) : String :=
  (c.lookup key).getD deflt

/-- Key presence, as `AbstractConfiguration::has`. -/
def ConfigTree.hasKey (c : ConfigTree) (key : String) : Bool :=
  (c.lookup key).isSome

/-- Boolean read with a default, as `AbstractConfiguration::getBool`. -/
def ConfigTree.getBool (c : ConfigTree) (key : String) (deflt : Bool) : Bool :=
  match c.lookup key with
  | some v => v == "true" || v == "1"
  | none => deflt

/-- Parses one configured header entry of the form `Name: Value`. -/
def headerFromString (v : String) : HTTPHeaderEntry :=
  match breakAt ':' v.data with
  | some (n, rest) => { name := ⟨n⟩, value := ⟨rest.dropWhile (· = ' ')⟩ }
  | none => { name := v, value := "" }

/-- Modelled from the spec: `AuthSettings::loadFromConfig` declared at
`src/IO/S3Common.h:167`, implementation absent from the source tree.  Reads
the named configuration subsection; absent string keys stay at the empty
string, absent tri-state flags stay unset; zero-or-more custom header entries
are collected in order. -/
def AuthSettings.loadFromConfig (config_elem : String) (config : ConfigTree) :
    AuthSettings where
  access_key_id := config.getString (config_elem ++ ".access_key_id") ""
  secret_access_key := config.getString (config_elem ++ ".secret_access_key") ""
  region := config.getString (config_elem ++ ".region") ""
  server_side_encryption_customer_key_base64 :=
    config.getString (config_elem ++ ".server_side_encryption_customer_key_base64") ""
  headers :=
    (config.entries.filter fun p =>
      String.isPrefixOf (config_elem ++ ".header") p.1).map fun p =>
        headerFromString p.2
  use_environment_credentials :=
    if config.hasKey (config_elem ++ ".use_environment_credentials") then
      some (config.getBool (config_elem ++ ".use_environment_credentials") false)
    else none
  use_insecure_imds_request :=
    if config.hasKey (config_elem ++ ".use_insecure_imds_request") then
      some (config.getBool (config_elem ++ ".use_insecure_imds_request") false)
    else none

/-- The internal error classification carried by a parse failure
(`ErrorCodes` in the source; `BAD_ARGUMENTS` is the illegal-argument
classification). -/
inductive ErrorClass where
  | BAD_ARGUMENTS
  | S3_ERROR
deriving DecidableEq, Repr

/-- A parse-time failure: an internal classification plus a human-readable
message. -/
structure ParseError where
  classification : ErrorClass
  message : String
deriving DecidableEq, Repr

/-- `URI` from `src/IO/S3Common.h:107`: endpoint (when the scheme is not the
storage scheme), bucket, key, version id, logical storage name, and the
addressing-style flag. -/
structure URI where
  endpoint : String
  bucket : String
  key : String
  version_id : String
  storage_name : String
  is_virtual_hosted_style : Bool
deriving DecidableEq, Repr

/-- A character legal in a bucket name: lowercase letter, digit, hyphen or
dot. -/
def validBucketChar (c : Char) : Bool :=
  c.isLower || c.isDigit || c = '-' || c = '.'

/-- Modelled from the spec: the provider bucket naming rules enforced by URI
parsing (length between 3 and 63, restricted character set, no leading or
trailing hyphen/dot). -/
def validBucketName (b : String) : Bool :=
  3 ≤ b.length && b.length ≤ 63 &&
  b.data.all validBucketChar &&
  (match b.data.head? with
   | some c => !(c = '-' || c = '.')
   | none => false) &&
  (match b.data.getLast? with
   | some c => !(c = '-' || c = '.')
   | none => false)

/-- Modelled from the spec: `URI::validateBucket` declared at
`src/IO/S3Common.h:121`, implementation absent from the source tree.  Fails
with the illegal-argument classification, naming the offending bucket and the
original URI text, when the naming rules are violated. -/
def validateBucket (bucket : String) (uri : String) : Except ParseError Unit :=
  if validBucketName bucket then .ok ()
  else .error { classification := .BAD_ARGUMENTS,
                message := "Invalid S3 bucket name: " ++ bucket
                  ++ " in URI: " ++ uri }

/-- Whether the scheme is one of the generic HTTP(S) schemes. -/
def isHTTPScheme (scheme : List Char) : Bool :=
  scheme == "http".data || scheme == "https".data

/-- Whether a domain names the storage service at its start (`s3` followed by
a dot or dash separator, or nothing). -/
def serviceDomainStart : List Char → Bool
  | 's' :: '3' :: rest =>
    match rest with
    | [] => true
    | '.' :: _ => true
    | '-' :: _ => true
    | _ => false
  | _ => false

/-- Modelled from the spec: virtual-hosted style means the bucket name appears
as a subdomain of the host; recognized when the part after the first dot of
the host names the storage service. -/
def isVirtualHostedHost (host : List Char) : Bool :=
  match breakAt '.' host with
  | some (_, rest) => serviceDomainStart rest
  | none => false

/-- The numeric value of a hexadecimal digit. -/
def hexVal (c : Char) : Option Nat :=
  if '0' ≤ c ∧ c ≤ '9' then some (c.toNat - '0'.toNat)
  else if 'a' ≤ c ∧ c ≤ 'f' then some (c.toNat - 'a'.toNat + 10)
  else if 'A' ≤ c ∧ c ≤ 'F' then some (c.toNat - 'A'.toNat + 10)
  else none

/-- Percent-decoding of the key portion of a URI: `%xy` with two hex digits
decodes to the corresponding character; everything else passes through. -/
def percentDecode : List Char → List Char
  | [] => []
  | c :: rest =>
    if c = '%' then
      match rest with
      | a :: b :: rest2 =>
        match hexVal a, hexVal b with
        | some x, some y => Char.ofNat (16 * x + y) :: percentDecode rest2
        | _, _ => c :: percentDecode (a :: b :: rest2)
      | [a] => c :: [a]
      | [] => [c]
    else c :: percentDecode rest

/-- The version id taken from the recognized `versionId` query parameter, when
present. -/
def extractVersionId (query : List Char) : String :=
  if "versionId=".data.isPrefixOf query then
    ⟨(query.drop 10).takeWhile (fun c => c ≠ '&')⟩
  else ""

/-- The parse failure for a malformed URI. -/
def parseFailure (s : List Char) : Except ParseError URI :=
  .error { classification := .BAD_ARGUMENTS,
           message := "Invalid S3 URI: " ++ ⟨s⟩ }

/-- Validates the bucket and assembles the parsed URI value; the key is
percent-decoded. -/
def mkParsedURI (endpoint : String) (bucketChars keyChars : List Char)
    (version_id storage_name : String) (vhs : Bool) (s : List Char) :
    Except ParseError URI :=
  match validateBucket ⟨bucketChars⟩ ⟨s⟩ with
  | .ok _ =>
    .ok { endpoint := endpoint, bucket := ⟨bucketChars⟩,
          key := ⟨percentDecode keyChars⟩, version_id := version_id,
          storage_name := storage_name, is_virtual_hosted_style := vhs }
  | .error e => .error e

/-- Modelled from the spec: the body of URI parsing after the scheme and the
query have been split off.  The short form `scheme://bucket/key` is
virtual-hosted style; the HTTP(S) form is virtual-hosted style when the host
encodes the bucket as a subdomain, else path-style with the bucket as the
first path segment. -/
def parseURIBody (s scheme body : List Char) (version_id : String) :
    Except ParseError URI :=
  match breakAt '/' body with
  | none =>
    if isHTTPScheme scheme then parseFailure s
    else mkParsedURI "" body [] version_id ⟨scheme⟩ true s
  | some (authority, path) =>
    if isHTTPScheme scheme then
      if isVirtualHostedHost authority then
        match breakAt '.' authority with
        | none => parseFailure s
        | some (bucketChars, _) =>
          mkParsedURI (⟨scheme⟩ ++ "://" ++ ⟨authority⟩) bucketChars path
            version_id "S3" true s
      else
        match breakAt '/' path with
        | none =>
          mkParsedURI (⟨scheme⟩ ++ "://" ++ ⟨authority⟩) path []
            version_id "S3" false s
        | some (bucketChars, keyChars) =>
          mkParsedURI (⟨scheme⟩ ++ "://" ++ ⟨authority⟩) bucketChars keyChars
            version_id "S3" false s
    else
      mkParsedURI "" authority path version_id ⟨scheme⟩ true s

/-- Modelled from the spec: the URI constructor `URI::URI(const std::string&)`
declared at `src/IO/S3Common.h:119`, implementation absent from the source
tree.  Splits scheme, query (for the `versionId` parameter) and body, then
parses the body by addressing family. -/
def parseURIChars (s : List Char) : Except ParseError URI :=
  match breakAt ':' s with
  | none => parseFailure s
  | some (scheme, afterColon) =>
    match afterColon with
    | '/' :: '/' :: rest =>
      match breakAt '?' rest with
      | some (body, query) => parseURIBody s scheme body (extractVersionId query)
      | none => parseURIBody s scheme rest ""
    | _ => parseFailure s

/-- URI parsing over strings. -/
def parseURI (s : String) : Except ParseError URI :=
  parseURIChars s.data

end S3Spec

namespace S3Spec

/-- C4: for every provider error code, `isRetryableError` and `isNotFoundError`
are never both true — the retryable and not-found classes are disjoint. -/
theorem retryable_notfound_disjoint (code : S3Errors) :
    (isRetryableError code && isNotFoundError code) = false := by
  cases code <;> rfl

/-- C5: the classifier predicates are total functions over the error-code
enumeration, and every code outside the explicitly recognized transient and
not-found classes classifies as non-retryable and not-not-found. -/
theorem unrecognized_code_conservative (code : S3Errors)
    (h1 : code ∉ transientCodes) (h2 : code ∉ notFoundCodes) :
    isRetryableError code = false ∧ isNotFoundError code = false := by
  cases code <;> simp_all [transientCodes, notFoundCodes,
    isRetryableError, isNotFoundError]

/-- Witness for C5 at the concrete unrecognized code `ACCESS_DENIED`. -/
theorem unrecognized_code_conservative_witness :
    isRetryableError .ACCESS_DENIED = false ∧ isNotFoundError .ACCESS_DENIED = false :=
  unrecognized_code_conservative .ACCESS_DENIED (by decide) (by decide)

/-- C1: whenever the metadata-only existence probe of `getObjectInfo` /
`getObjectSize` fails with a body-less error response, the operation performs
region discovery and then retries the original probe exactly once against the
corrected region before giving up (when discovery yields no region, it gives up
with no retry); over all calls the trace never holds more than two probes or
more than one discovery, and `getObjectSize` issues exactly the requests of
`getObjectInfo`. -/
theorem region_discovery_single_retry (client : S3Client)
    (bucket key version_id : String) :
    probeCount (getObjectInfoEvents client bucket key version_id) ≤ 2 ∧
    detectCount (getObjectInfoEvents client bucket key version_id) ≤ 1 ∧
    getObjectSizeEvents client bucket key version_id
      = getObjectInfoEvents client bucket key version_id ∧
    (∀ e, client.probe client.region bucket key version_id = .errorNoBody e →
      (∀ corrected, client.detectRegion = some corrected →
        getObjectInfoEvents client bucket key version_id
          = [.probeReq client.region, .regionDetect, .probeReq corrected]) ∧
      (client.detectRegion = none →
        getObjectInfoEvents client bucket key version_id
          = [.probeReq client.region, .regionDetect])) := by
  unfold getObjectInfoEvents getObjectSizeEvents getObjectInfoImpl
  rcases hp : client.probe client.region bucket key version_id with info | e | e <;>
    rcases hd : client.detectRegion with _ | corrected <;>
    simp [probeCount, detectCount, hp, hd] <;>
  rcases hp2 : client.probe corrected bucket key version_id with info2 | e2 | e2 <;>
    simp [probeCount, detectCount, hp2]

/-- Witness for C1, matching the spec scenario: a client configured for region
`us-east-1` whose object lives in `us-west-2`; the probe against `us-east-1`
fails body-less, region discovery reports `us-west-2`, and the retried probe
succeeds — so `getObjectSize` returns the correct size after exactly one
region-corrected retry. -/
theorem region_discovery_single_retry_witness :
    getObjectInfoEvents
      { region := "us-east-1",
        probe := fun r _ _ _ =>
          if r = "us-west-2" then
            .success { size := 1024, last_modification_time := 1700000000 }
          else
            .errorNoBody { code := .UNKNOWN, message := "" },
        detectRegion := some "us-west-2",
        fetchMetadata := fun _ _ _ => .ok [] }
      "test" "mydata.csv" ""
      = [.probeReq "us-east-1", .regionDetect, .probeReq "us-west-2"] ∧
    getObjectSize
      { region := "us-east-1",
        probe := fun r _ _ _ =>
          if r = "us-west-2" then
            .success { size := 1024, last_modification_time := 1700000000 }
          else
            .errorNoBody { code := .UNKNOWN, message := "" },
        detectRegion := some "us-west-2",
        fetchMetadata := fun _ _ _ => .ok [] }
      "test" "mydata.csv" = .ok 1024 := by
  refine ⟨?_, rfl⟩
  exact ((region_discovery_single_retry _ "test" "mydata.csv" "").2.2.2
    { code := .UNKNOWN, message := "" } (by decide)).1 "us-west-2" rfl

/-- C2: when the object does not exist (the probe reports a not-found error),
`checkObjectExists` returns `(false, the not-found error)` and never raises;
and whenever `checkObjectExists` does raise, the raised code is one the
classifier deems non-retryable and non-not-found. -/
theorem check_object_exists_not_found (client : S3Client)
    (bucket key version_id : String) (for_disk_s3 : Bool) :
    (∀ e, (client.probe client.region bucket key version_id).errorOf = some e →
      isNotFoundError e.code = true →
      checkObjectExists client bucket key version_id for_disk_s3
        = .ok (false, some e)) ∧
    (∀ ex, checkObjectExists client bucket key version_id for_disk_s3
        = .error ex →
      isRetryableError ex.code = false ∧ isNotFoundError ex.code = false) := by
  constructor
  · intro e he hnf
    unfold checkObjectExists
    rw [he]
    simp [hnf]
  · intro ex hex
    unfold checkObjectExists at hex
    rcases he : (client.probe client.region bucket key version_id).errorOf with _ | e
    · rw [he] at hex; exact absurd hex (by simp)
    · rw [he] at hex
      simp only [] at hex
      split_ifs at hex with hnf hr
      all_goals first
        | (simp only [Except.error.injEq] at hex
           subst hex
           exact ⟨by simpa [s3ExceptionOf] using hr, by simpa [s3ExceptionOf] using hnf⟩)
        | simp at hex

/-- Witness for C2, matching the spec scenario: a missing key reports
`(false, NO_SUCH_KEY)` without raising. -/
theorem check_object_exists_not_found_witness :
    checkObjectExists
      { region := "us-east-1",
        probe := fun _ _ _ _ =>
          .errorWithBody { code := .NO_SUCH_KEY, message := "missing" },
        detectRegion := none,
        fetchMetadata := fun _ _ _ => .ok [] }
      "bucket1" "missing.csv" "" false
      = .ok (false, some { code := .NO_SUCH_KEY, message := "missing" }) :=
  (check_object_exists_not_found _ "bucket1" "missing.csv" "" false).1
    { code := .NO_SUCH_KEY, message := "missing" } rfl rfl

/-- C3 counterexample: the claim says all four object query operations take a
`throw_on_error` parameter, but the parameter list of `checkObjectExists`
declared at `src/IO/S3Common.h:147` has no such parameter. -/
theorem check_object_exists_lacks_throw_flag :
    "throw_on_error" ∉ checkObjectExistsParamNames := by
  decide

/-- C3 amended: `objectExists`, `getObjectInfo`, `getObjectSize` and
`getObjectMetadata` each take a `throw_on_error` parameter, and with
`throw_on_error = false` each reports absence or failure as a sentinel return
value, never raising; `checkObjectExists` takes no `throw_on_error` parameter
and instead reports existence and error in its return value. -/
theorem sentinel_on_suppressed_raise :
    "throw_on_error" ∈ objectExistsParamNames ∧
    "throw_on_error" ∈ getObjectInfoParamNames ∧
    "throw_on_error" ∈ getObjectSizeParamNames ∧
    "throw_on_error" ∈ getObjectMetadataParamNames ∧
    "throw_on_error" ∉ checkObjectExistsParamNames ∧
    ∀ (client : S3Client) (bucket key version_id : String) (for_disk_s3 : Bool),
      (∃ v, objectExists client bucket key version_id for_disk_s3 false = .ok v) ∧
      (∃ v, getObjectInfo client bucket key version_id for_disk_s3 false = .ok v) ∧
      (∃ v, getObjectSize client bucket key version_id for_disk_s3 false = .ok v) ∧
      (∃ v, getObjectMetadata client bucket key version_id for_disk_s3 false = .ok v) := by
  refine ⟨by decide, by decide, by decide, by decide, by decide, ?_⟩
  intro client bucket key version_id for_disk_s3
  refine ⟨?_, ?_, ?_, ?_⟩
  · unfold objectExists
    rcases (client.probe client.region bucket key version_id).errorOf with _ | e
    · exact ⟨true, rfl⟩
    · by_cases hnf : isNotFoundError e.code = true <;> simp [hnf]
  · unfold getObjectInfo
    rcases (getObjectInfoImpl client bucket key version_id).1 with e | info
    · exact ⟨{}, rfl⟩
    · exact ⟨info, rfl⟩
  · unfold getObjectSize getObjectInfo
    rcases (getObjectInfoImpl client bucket key version_id).1 with e | info
    · exact ⟨ObjectInfo.size {}, rfl⟩
    · exact ⟨info.size, rfl⟩
  · unfold getObjectMetadata
    rcases client.fetchMetadata bucket key version_id with e | m
    · exact ⟨[], rfl⟩
    · exact ⟨m, rfl⟩

/-- C10: calling `getObjectInfo`, `getObjectSize`, `objectExists` or
`getObjectMetadata` without the optional trailing arguments is the same as
passing `version_id = ""`, `for_disk_s3 = false`, `throw_on_error = true`
(the defaults declared at `src/IO/S3Common.h:140`-`152`), and under these
defaults each operation raises on a non-absence failure, preserving the
provider code and message. -/
theorem default_arguments_raise (client : S3Client) (bucket key : String) :
    getObjectInfo client bucket key = getObjectInfo client bucket key "" false true ∧
    getObjectSize client bucket key = getObjectSize client bucket key "" false true ∧
    objectExists client bucket key = objectExists client bucket key "" false true ∧
    getObjectMetadata client bucket key = getObjectMetadata client bucket key "" false true ∧
    (∀ e, (getObjectInfoImpl client bucket key "").1 = .error e →
      getObjectInfo client bucket key = .error (s3ExceptionOf e)) ∧
    (∀ e, (client.probe client.region bucket key "").errorOf = some e →
      isNotFoundError e.code = false →
      objectExists client bucket key = .error (s3ExceptionOf e)) ∧
    (∀ e, client.fetchMetadata bucket key "" = .error e →
      getObjectMetadata client bucket key = .error (s3ExceptionOf e)) := by
  refine ⟨rfl, rfl, rfl, rfl, ?_, ?_, ?_⟩
  · intro e he
    unfold getObjectInfo
    rw [he]
    rfl
  · intro e he hnf
    unfold objectExists
    rw [he]
    simp [hnf]
  · intro e he
    unfold getObjectMetadata
    rw [he]
    rfl

/-- Witness for C10 at a concrete client whose probe and metadata fetch fail
with `ACCESS_DENIED`: every default-argument call raises the exception carrying
that code. -/
theorem default_arguments_raise_witness :
    getObjectInfo
      { region := "us-east-1",
        probe := fun _ _ _ _ =>
          .errorWithBody { code := .ACCESS_DENIED, message := "denied" },
        detectRegion := none,
        fetchMetadata := fun _ _ _ =>
          .error { code := .ACCESS_DENIED, message := "denied" } }
      "bucket1" "data.csv"
      = .error (s3ExceptionOf { code := .ACCESS_DENIED, message := "denied" }) ∧
    objectExists
      { region := "us-east-1",
        probe := fun _ _ _ _ =>
          .errorWithBody { code := .ACCESS_DENIED, message := "denied" },
        detectRegion := none,
        fetchMetadata := fun _ _ _ =>
          .error { code := .ACCESS_DENIED, message := "denied" } }
      "bucket1" "data.csv"
      = .error (s3ExceptionOf { code := .ACCESS_DENIED, message := "denied" }) := by
  constructor
  · exact (default_arguments_raise _ "bucket1" "data.csv").2.2.2.2.1
      { code := .ACCESS_DENIED, message := "denied" } rfl
  · exact (default_arguments_raise _ "bucket1" "data.csv").2.2.2.2.2.1
      { code := .ACCESS_DENIED, message := "denied" } rfl rfl

/-- Overriding a string field twice with the same value equals once. -/
theorem overrideString_idem (old new : String) :
    overrideString (overrideString old new) new = overrideString old new := by
  unfold overrideString
  split <;> simp [*]

/-- Overriding the header list twice with the same value equals once. -/
theorem overrideHeaders_idem (old new : List HTTPHeaderEntry) :
    overrideHeaders (overrideHeaders old new) new = overrideHeaders old new := by
  unfold overrideHeaders
  split <;> simp [*]

/-- Overriding a tri-state flag twice with the same value equals once. -/
theorem overrideFlag_idem (old new : Option Bool) :
    overrideFlag (overrideFlag old new) new = overrideFlag old new := by
  cases new <;> rfl

/-- C8: `AuthSettings::updateFrom` is idempotent — applying the same delta
twice in succession leaves the settings in the same state as applying it
once. -/
theorem auth_update_from_idempotent (a b : AuthSettings) :
    (a.updateFrom b).updateFrom b = a.updateFrom b := by
  simp [AuthSettings.updateFrom, overrideString_idem, overrideHeaders_idem,
    overrideFlag_idem]

/-- C9: `AuthSettings::loadFromConfig` is deterministic — loading the identical
configuration section twice yields settings that are equal under the
structural equality operator. -/
theorem load_from_config_deterministic (config_elem : String) (config : ConfigTree) :
    AuthSettings.structEq (AuthSettings.loadFromConfig config_elem config)
      (AuthSettings.loadFromConfig config_elem config) = true := by
  simp [AuthSettings.structEq]

/-- A string is its character data, repackaged. -/
theorem string_mk_data (s : String) : String.mk s.data = s := rfl

/-- The character data of an appended string. -/
theorem string_data_append (s t : String) : (s ++ t).data = s.data ++ t.data := rfl

/-- `breakAt` misses: when the separator does not occur, it returns `none`. -/
theorem breakAt_none (c : Char) (l : List Char) (h : c ∉ l) :
    breakAt c l = none := by
  induction l with
  | nil => rfl
  | cons x xs ih =>
    have hx : ¬(x = c) := by
      intro he; subst he; exact h (List.mem_cons_self x xs)
    have hxs : c ∉ xs := fun hm => h (List.mem_cons_of_mem _ hm)
    simp [breakAt, hx, ih hxs]

/-- `breakAt` splits at the first occurrence of the separator. -/
theorem breakAt_append (c : Char) (l r : List Char) (h : c ∉ l) :
    breakAt c (l ++ c :: r) = some (l, r) := by
  induction l with
  | nil => simp [breakAt]
  | cons x xs ih =>
    have hx : ¬(x = c) := by
      intro he; subst he; exact h (List.mem_cons_self x xs)
    have hxs : c ∉ xs := fun hm => h (List.mem_cons_of_mem _ hm)
    simp [breakAt, hx, ih hxs]

/-- Percent-decoding is the identity on text without a percent sign. -/
theorem percentDecode_id (l : List Char) (h : '%' ∉ l) : percentDecode l = l := by
  induction l with
  | nil => rfl
  | cons c rest ih =>
    have hc : ¬(c = '%') := by
      intro he; subst he; exact h (List.mem_cons_self _ _)
    have hr : '%' ∉ rest := fun hm => h (List.mem_cons_of_mem _ hm)
    rw [percentDecode.eq_def]
    simp [hc, ih hr]

/-- A character outside the bucket alphabet does not occur in a valid bucket
name. -/
theorem validBucket_no_char (b : String) (hb : validBucketName b = true)
    (c : Char) (hc : validBucketChar c = false) : c ∉ b.data := by
  intro hm
  unfold validBucketName at hb
  simp only [Bool.and_eq_true, List.all_eq_true] at hb
  have := hb.1.1.2 c hm
  rw [hc] at this
  exact Bool.false_ne_true this

/-- Parsing of the scheme-specific short form `scheme://bucket/key`: the
bucket is the authority, the key everything after it, and the style is
virtual-hosted. -/
theorem parseURIChars_short_form (scheme bc kc : List Char)
    (hscheme : isHTTPScheme scheme = false) (hcolon : ':' ∉ scheme)
    (hb : validBucketName ⟨bc⟩ = true)
    (hqk : '?' ∉ kc) (hpct : '%' ∉ kc) :
    parseURIChars (scheme ++ ':' :: '/' :: '/' :: (bc ++ '/' :: kc))
      = .ok { endpoint := "", bucket := ⟨bc⟩, key := ⟨kc⟩, version_id := "",
              storage_name := ⟨scheme⟩, is_virtual_hosted_style := true } := by
  have hqb : '?' ∉ bc := validBucket_no_char ⟨bc⟩ hb '?' rfl
  have hsb : '/' ∉ bc := validBucket_no_char ⟨bc⟩ hb '/' rfl
  have hqall : '?' ∉ bc ++ '/' :: kc := by simp [hqb, hqk]
  simp only [parseURIChars, breakAt_append ':' scheme _ hcolon,
    breakAt_none '?' _ hqall, parseURIBody, breakAt_append '/' bc kc hsb,
    hscheme, mkParsedURI, validateBucket, hb, percentDecode_id kc hpct]
  simp

/-- Parsing of the path-style HTTP form `scheme://host/bucket/key` for a host
that is not virtual-hosted shaped: the bucket is the first path segment, the
key everything after it, and the style is path-style. -/
theorem parseURIChars_path_style (scheme hostc bc kc : List Char)
    (hscheme : isHTTPScheme scheme = true) (hcolon : ':' ∉ scheme)
    (hvh : isVirtualHostedHost hostc = false)
    (hsh : '/' ∉ hostc) (hqh : '?' ∉ hostc)
    (hb : validBucketName ⟨bc⟩ = true)
    (hqk : '?' ∉ kc) (hpct : '%' ∉ kc) :
    parseURIChars (scheme ++ ':' :: '/' :: '/' :: (hostc ++ '/' :: (bc ++ '/' :: kc)))
      = .ok { endpoint := ⟨scheme⟩ ++ "://" ++ ⟨hostc⟩, bucket := ⟨bc⟩,
              key := ⟨kc⟩, version_id := "", storage_name := "S3",
              is_virtual_hosted_style := false } := by
  have hqb : '?' ∉ bc := validBucket_no_char ⟨bc⟩ hb '?' rfl
  have hsb : '/' ∉ bc := validBucket_no_char ⟨bc⟩ hb '/' rfl
  have hqall : '?' ∉ hostc ++ '/' :: (bc ++ '/' :: kc) := by
    simp [hqh, hqb, hqk]
  simp only [parseURIChars, breakAt_append ':' scheme _ hcolon,
    breakAt_none '?' _ hqall, parseURIBody,
    breakAt_append '/' hostc (bc ++ '/' :: kc) hsh,
    hscheme, hvh, breakAt_append '/' bc kc hsb,
    mkParsedURI, validateBucket, hb, percentDecode_id kc hpct]
  simp

/-- C6: every URI of the short form `scheme://b/k` (scheme-specific, i.e. not
HTTP(S); `b` a valid bucket name; `k` free of query and escape characters)
parses to `bucket = b, key = k, is_virtual_hosted_style = true`; every
path-style HTTP URI `http://host/b/k` (host not virtual-hosted shaped) parses
to `bucket = b, key = k, is_virtual_hosted_style = false`. -/
theorem uri_parse_styles :
    (∀ scheme b k : String,
      isHTTPScheme scheme.data = false → ':' ∉ scheme.data →
      validBucketName b = true → '?' ∉ k.data → '%' ∉ k.data →
      parseURI (scheme ++ "://" ++ b ++ "/" ++ k)
        = .ok { endpoint := "", bucket := b, key := k, version_id := "",
                storage_name := scheme, is_virtual_hosted_style := true }) ∧
    (∀ host b k : String,
      isVirtualHostedHost host.data = false →
      '/' ∉ host.data → '?' ∉ host.data →
      validBucketName b = true → '?' ∉ k.data → '%' ∉ k.data →
      parseURI ("http://" ++ host ++ "/" ++ b ++ "/" ++ k)
        = .ok { endpoint := "http://" ++ host, bucket := b, key := k,
                version_id := "", storage_name := "S3",
                is_virtual_hosted_style := false }) := by
  constructor
  · intro scheme b k hscheme hcolon hb hqk hpct
    have hdata : (scheme ++ "://" ++ b ++ "/" ++ k).data
        = scheme.data ++ ':' :: '/' :: '/' :: (b.data ++ '/' :: k.data) := by
      simp [string_data_append]
    unfold parseURI
    rw [hdata]
    exact parseURIChars_short_form scheme.data b.data k.data hscheme hcolon hb hqk hpct
  · intro host b k hvh hsh hqh hb hqk hpct
    have hdata : ("http://" ++ host ++ "/" ++ b ++ "/" ++ k).data
        = "http".data ++ ':' :: '/' :: '/'
            :: (host.data ++ '/' :: (b.data ++ '/' :: k.data)) := by
      simp [string_data_append]
    unfold parseURI
    rw [hdata]
    exact parseURIChars_path_style "http".data host.data b.data k.data rfl
      (by decide) hvh hsh hqh hb hqk hpct

/-- Witness for C6 at concrete URIs: `s3://bucket1/data/file.csv` parses
virtual-hosted with bucket `bucket1`, key `data/file.csv`;
`http://example.com/bucket1/file.csv` parses path-style with bucket
`bucket1`, key `file.csv`. -/
theorem uri_parse_styles_witness :
    parseURI "s3://bucket1/data/file.csv"
      = .ok { endpoint := "", bucket := "bucket1", key := "data/file.csv",
              version_id := "", storage_name := "s3",
              is_virtual_hosted_style := true } ∧
    parseURI "http://example.com/bucket1/file.csv"
      = .ok { endpoint := "http://example.com", bucket := "bucket1",
              key := "file.csv", version_id := "", storage_name := "S3",
              is_virtual_hosted_style := false } := by
  constructor
  · have h := uri_parse_styles.1 "s3" "bucket1" "data/file.csv"
      (by decide) (by decide) (by decide) (by decide) (by decide)
    exact h
  · have h := uri_parse_styles.2 "example.com" "bucket1" "file.csv"
      (by decide) (by decide) (by decide) (by decide) (by decide) (by decide)
    exact h

/-- C7: `validateBucket` succeeds for every bucket name satisfying the naming
rules; for every name violating a rule (too short, too long, invalid
character, leading hyphen) it fails with the illegal-argument classification
and a message that includes the offending bucket name and the original URI
text. -/
theorem validate_bucket_rules :
    (∀ b u : String, validBucketName b = true → validateBucket b u = .ok ()) ∧
    (∀ b u : String,
      (b.length < 3 ∨ 63 < b.length ∨
        (∃ c ∈ b.data, validBucketChar c = false) ∨
        b.data.head? = some '-') →
      ∃ m, validateBucket b u
          = .error { classification := .BAD_ARGUMENTS, message := m } ∧
        b.data <:+: m.data ∧ u.data <:+: m.data) := by
  constructor
  · intro b u h
    simp [validateBucket, h]
  · intro b u hviol
    have hfalse : ¬(validBucketName b = true) := by
      unfold validBucketName
      rcases hviol with h | h | ⟨c, hc, hcf⟩ | h
      · have : ¬(3 ≤ b.length) := by omega
        simp [this]
      · have : ¬(b.length ≤ 63) := by omega
        simp [this]
      · have : ¬(∀ x ∈ b.data, validBucketChar x = true) := by
          intro hall
          rw [hall c hc] at hcf
          exact Bool.noConfusion hcf
        simp only [Bool.and_eq_true, List.all_eq_true]
        tauto
      · rw [h]
        simp
    refine ⟨"Invalid S3 bucket name: " ++ b ++ " in URI: " ++ u, ?_, ?_, ?_⟩
    · simp [validateBucket, hfalse]
    · exact ⟨"Invalid S3 bucket name: ".data, (" in URI: " ++ u).data,
        by simp [string_data_append]⟩
    · exact ⟨("Invalid S3 bucket name: " ++ b ++ " in URI: ").data, [],
        by simp [string_data_append]⟩

/-- Witness for C7: the valid name `abc` passes; the too-short name `ab` fails
with the illegal-argument classification and a message containing the bucket
and the URI text. -/
theorem validate_bucket_rules_witness :
    validateBucket "abc" "s3://abc/k" = .ok () ∧
    ∃ m, validateBucket "ab" "s3://ab/k"
        = .error { classification := .BAD_ARGUMENTS, message := m } ∧
      "ab".data <:+: m.data ∧ "s3://ab/k".data <:+: m.data :=
  ⟨validate_bucket_rules.1 "abc" "s3://abc/k" (by decide),
   validate_bucket_rules.2 "ab" "s3://ab/k" (Or.inl (by decide))⟩

end S3Spec
